import Mathlib

/-!
Verification of the SecureMeet repository: a shallow embedding of the
session orchestrator (modelled from the specification where the Python
sources are not in the repository snapshot) and of the Chrome-extension
remote-control client (popup.js, background.js, content.js), together
with theorems settling the frozen claims.
-/

namespace SecureMeet

/-! ## Generic list-of-characters helpers (substring search, splitting) -/

/-- Substring containment on character lists, mirroring the JavaScript
String.prototype.includes used throughout the extension. -/
def listContains (s pat : List Char) : Bool :=
  if pat.isPrefixOf s then true
  else
    match s with
    | [] => false
    | _ :: t => listContains t pat

/-- Drop everything up to and including the first occurrence of pat,
returning none when pat does not occur. Used to embed a regex of the
shape A.*B as: match A, then search B in the remaining suffix. -/
def dropAfterMatch (s pat : List Char) : Option (List Char) :=
  if pat.isPrefixOf s then some (s.drop pat.length)
  else
    match s with
    | [] => none
    | _ :: t => dropAfterMatch t pat

/-- Split a character list at the first occurrence of a separator
character: the part before it and the part after it. -/
def splitAtChar (c : Char) : List Char → List Char × List Char
  | [] => ([], [])
  | x :: xs =>
    if x = c then ([], xs)
    else
      let r := splitAtChar c xs
      (x :: r.1, r.2)

/-! ## Data model (spec section 3) -/

/-- Session states of the SessionStateMachine (spec section 4.1). -/
inductive SessionState
  | Idle
  | Recording
  | Stopping
  | Transcribing
  | Summarizing
  | Ready
  | Failed
deriving DecidableEq, Repr

/-- Error taxonomy of the orchestrator (spec section 7). -/
inductive OrchestratorError
  | DeviceError
  | CaptureError
  | WorkerSpawnError
  | WorkerCrashError
  | WorkerTimeoutError
  | SummarizationError
  | StateConflictError
deriving DecidableEq, Repr

/-- Printable name of an error, stored in the Session error field. -/
def errName : OrchestratorError → String
  | .DeviceError => "DeviceError"
  | .CaptureError => "CaptureError"
  | .WorkerSpawnError => "WorkerSpawnError"
  | .WorkerCrashError => "WorkerCrashError"
  | .WorkerTimeoutError => "WorkerTimeoutError"
  | .SummarizationError => "SummarizationError"
  | .StateConflictError => "StateConflictError"

/-- Transcript produced by the worker (spec section 3). Duration is in
whole seconds. -/
structure TranscriptResult where
  full_text : String
  duration : Nat
deriving DecidableEq, Repr

/-- Structured summary (spec section 3). -/
structure SummaryResult where
  executive_summary : String
  key_discussion_points : List String
  action_items : List String
  decisions_made : List String
  next_steps : List String
  model_used : String
  meeting_title : Option String
deriving DecidableEq, Repr

/-- Modelled from the spec: main.py and local_server.py are absent from
the snapshot; the SessionStateMachine of spec section 4.1 is embedded as
one mutable record holding the current Session fields (spec section 3:
exactly one Session is live at a time). The sessionId counter increases
each time a new Session is allocated. -/
structure Machine where
  sessionId : Nat
  state : SessionState
  device_id : Option Nat
  duration : Nat
  transcript : Option TranscriptResult
  summary : Option SummaryResult
  error : Option String
deriving DecidableEq, Repr

/-- Result of a POST endpoint, mirroring the success and optional error
of the JSON bodies in spec section 6. -/
structure ApiResult where
  success : Bool
  error : Option OrchestratorError
deriving DecidableEq, Repr

/-- States from which start is valid (spec section 4.1: only Idle,
Ready, Failed). -/
def canStart (s : SessionState) : Bool :=
  match s with
  | .Idle => true
  | .Ready => true
  | .Failed => true
  | _ => false

/-- Modelled from the spec: start allocates a new Session (clearing
prior transcript, summary and error), delegates capture start, and
transitions to Recording; from any non-startable state it fails with
StateConflictError and leaves the machine unchanged. -/
def start (m : Machine) (device : Option Nat) : ApiResult × Machine :=
  if canStart m.state then
    (⟨true, none⟩,
     { sessionId := m.sessionId + 1
       state := .Recording
       device_id := device
       duration := 0
       transcript := none
       summary := none
       error := none })
  else
    (⟨false, some .StateConflictError⟩, m)

/-- Read-only status projection exposed over GET /status (spec
sections 3 and 6). -/
structure StatusSnapshot where
  recording : Bool
  duration : Nat
  has_transcript : Bool
  has_summary : Bool
  error : Option String
deriving DecidableEq, Repr

/-- Modelled from the spec: the status endpoint is a thin synchronous
projection of the Session record. -/
def statusOf (m : Machine) : StatusSnapshot :=
  { recording := m.state = .Recording
    duration := m.duration
    has_transcript := m.transcript.isSome
    has_summary := m.summary.isSome
    error := m.error }

/-! ## TranscriptionWorkerBridge (spec section 4.3) -/

/-- Worker lifecycle status (spec section 3). -/
inductive WorkerStatus
  | Starting
  | Ready
  | Busy
  | Crashed
  | Exited
deriving DecidableEq, Repr

/-- Handle to the worker process, exclusively owned by the bridge. -/
structure WorkerHandle where
  pid : Nat
  status : WorkerStatus
deriving DecidableEq, Repr

/-- Modelled from the spec: transcription.py is absent from the
snapshot; the bridge keeps at most one WorkerHandle and a counter from
which fresh process identifiers are drawn, so a newly spawned process
always has a pid distinct from every earlier one. -/
structure Bridge where
  handle : Option WorkerHandle
  nextPid : Nat
deriving DecidableEq, Repr

/-- Observable fate of one submission as seen from the bridge side of
the channel: a structured response, a process exit with the given code
before any response, or a broken channel before any response. -/
inductive WorkerOutcome
  | response (t : TranscriptResult)
  | exited (code : Nat)
  | brokenChannel
deriving DecidableEq, Repr

/-- An outcome that yields WorkerCrashError: a non-zero exit or a
broken channel before a response is received (spec section 4.3). -/
def outcomeCrashes : WorkerOutcome → Bool
  | .response _ => false
  | .exited code => code ≠ 0
  | .brokenChannel => true

/-- Modelled from the spec: submit spawns the worker process if the
current handle is not Ready (in particular if it is Crashed or absent),
reusing the handle only when its status is Ready. -/
def spawnIfNeeded (b : Bridge) : WorkerHandle × Bridge :=
  match b.handle with
  | some h =>
    if h.status = .Ready then (h, b)
    else
      (⟨b.nextPid, .Ready⟩, { handle := some ⟨b.nextPid, .Ready⟩, nextPid := b.nextPid + 1 })
  | none =>
    (⟨b.nextPid, .Ready⟩, { handle := some ⟨b.nextPid, .Ready⟩, nextPid := b.nextPid + 1 })

/-- Modelled from the spec: one submission. On a crash outcome the
bridge returns WorkerCrashError and marks the handle Crashed; a
successful response leaves the handle Ready for reuse. An exit with
code 0 before any response is a broken channel as well, hence also a
crash. -/
def submit (b : Bridge) (outcome : WorkerOutcome) :
    Except OrchestratorError TranscriptResult × Bridge :=
  let s := spawnIfNeeded b
  match outcome with
  | .response t =>
    (.ok t, { s.2 with handle := some ⟨s.1.pid, .Ready⟩ })
  | _ =>
    (.error .WorkerCrashError, { s.2 with handle := some ⟨s.1.pid, .Crashed⟩ })

/-- The orchestrator couples the state machine with the bridge. -/
structure Orchestrator where
  machine : Machine
  bridge : Bridge
deriving DecidableEq, Repr

/-- Modelled from the spec: the transcription stage of the pipeline.
While Transcribing, the finalized buffer is submitted to the bridge; a
successful transcript moves the session to Summarizing, while any
failure stores the error text and forces Failed, short-circuiting
later stages (spec section 4.1). -/
def runTranscription (o : Orchestrator) (outcome : WorkerOutcome) : Orchestrator :=
  if o.machine.state = .Transcribing then
    match submit o.bridge outcome with
    | (.ok t, b) =>
      { machine := { o.machine with transcript := some t, state := .Summarizing }
        bridge := b }
    | (.error e, b) =>
      { machine := { o.machine with error := some (errName e), state := .Failed }
        bridge := b }
  else o

/-! ## SummarizationEngine (spec section 4.4) -/

/-- Characters ending a sentence. -/
def sentenceTerminator (c : Char) : Bool :=
  c = '.' || c = '!' || c = '?'

/-- Split a character list on sentence terminators. -/
def splitOnTerm : List Char → List Char → List (List Char)
  | [], acc => [acc.reverse]
  | c :: cs, acc =>
    if sentenceTerminator c then acc.reverse :: splitOnTerm cs []
    else splitOnTerm cs (c :: acc)

/-- Modelled from the spec: summarization.py is absent from the
snapshot; sentence extraction splits the transcript on terminators and
keeps only fragments containing at least one letter, so a transcript of
punctuation or whitespace alone yields no sentence. -/
def extractSentences (text : String) : List String :=
  ((splitOnTerm text.toList []).filter (fun s => s.any Char.isAlpha)).map
    (fun s => String.mk s)

/-- Case-insensitive cue containment in a sentence. -/
def containsCue (s : String) (cue : String) : Bool :=
  listContains (s.toList.map Char.toLower) (cue.toList.map Char.toLower)

/-- Imperative and assignment cues flagging action items (spec
section 4.4). -/
def actionCues : List String := ["will", "need to", " by "]

/-- Decision cues (spec section 4.4). -/
def decisionCues : List String := ["agreed", "decided", "we will go with"]

/-- Modelled from the spec: cues for next steps; the spec names the
category without listing its cues, so a small fixed cue list is chosen
here. -/
def nextStepCues : List String := ["next step", "follow up", "going forward"]

/-- Crude keyword salience: the number of long words in a sentence. -/
def keywordSalience (s : String) : Nat :=
  ((s.toList.splitOn ' ').filter (fun w => 6 < w.length)).length

/-- Modelled from the spec: a heuristic score from position, length and
keyword salience (spec section 4.4). -/
def scoreSentence (idx total : Nat) (s : String) : Nat :=
  (if idx * 3 < total then 2 else 0)
    + (if 40 ≤ s.length && s.length ≤ 200 then 2 else 0)
    + keywordSalience s

/-- Indices of the top n scored sentences, restored to original order. -/
def topIndices (scored : List (Nat × Nat)) (n : Nat) : List Nat :=
  (((scored.mergeSort (fun a b => b.2 ≤ a.2)).take n).map (fun p => p.1)).mergeSort
    (fun a b => a ≤ b)

/-- Sentences at the given indices, in the given index order. -/
def selectAt (sents : List String) (idxs : List Nat) : List String :=
  idxs.filterMap (fun i => sents.get? i)

/-- Modelled from the spec: the local extractive strategy. Scores the
sentences, selects the top five as key discussion points and composes
the executive summary from the top three in original order; flags
action items, decisions and next steps by cue containment. Fully
on-device and a pure function of the text. -/
def summarizeLocal (text : String) : SummaryResult :=
  let sents := extractSentences text
  let scored := (sents.enum).map (fun p => (p.1, scoreSentence p.1 sents.length p.2))
  { executive_summary := String.intercalate " " (selectAt sents (topIndices scored 3))
    key_discussion_points := selectAt sents (topIndices scored 5)
    action_items := sents.filter (fun s => actionCues.any (fun c => containsCue s c))
    decisions_made := sents.filter (fun s => decisionCues.any (fun c => containsCue s c))
    next_steps := sents.filter (fun s => nextStepCues.any (fun c => containsCue s c))
    model_used := "local"
    meeting_title := none }

/-- The empty but well-formed summary returned for empty input. -/
def emptySummaryResult (model : String) : SummaryResult :=
  { executive_summary := ""
    key_discussion_points := []
    action_items := []
    decisions_made := []
    next_steps := []
    model_used := model
    meeting_title := none }

/-- What the remote summarization API did for one call. -/
inductive RemoteNet
  | ok (r : SummaryResult)
  | netFailure
  | authFailure
deriving DecidableEq, Repr

/-- Modelled from the spec: the remote strategy sends only the
transcript text to the external API; an empty or near-empty transcript
is answered with an empty-but-well-formed result without calling the
API, and any network or authorization failure falls back to the local
strategy (spec sections 4.4 and 7). -/
def summarizeRemote (net : RemoteNet) (text : String) : SummaryResult :=
  if extractSentences text = [] then emptySummaryResult "remote"
  else
    match net with
    | .ok r => r
    | .netFailure => summarizeLocal text
    | .authFailure => summarizeLocal text

/-- The two interchangeable strategies (spec section 4.4). -/
inductive Strategy
  | localExtractive
  | remoteApi
deriving DecidableEq, Repr

/-- Modelled from the spec: the engine entry point, returning the
result together with the number of network calls the invocation
performed (zero for the local strategy; one remote call attempt
otherwise, unless the empty-transcript guard answered first). -/
def engineSummarize : Strategy → RemoteNet → String → SummaryResult × Nat
  | .localExtractive, _, t => (summarizeLocal t, 0)
  | .remoteApi, net, t =>
    (summarizeRemote net t, if extractSentences t = [] then 0 else 1)

/-! ## AudioCaptureService devices (spec section 4.2) -/

/-- An audio input device (spec section 3). -/
structure AudioDevice where
  id : Nat
  name : String
  is_loopback : Bool
deriving DecidableEq, Repr

/-- The system default device reported when the probe finds nothing. -/
def defaultDevice : AudioDevice :=
  { id := 0, name := "System Default", is_loopback := false }

/-- Modelled from the spec: audio_capture.py is absent from the
snapshot; list_devices refreshes the probed set on each query, falls
back to the system default device when the probe finds nothing (the
result always has at least one entry), and sorts loopback-capable
devices before non-loopback ones (spec sections 3 and 4.2). -/
def list_devices (probed : List AudioDevice) : List AudioDevice :=
  let ds := if probed.isEmpty then [defaultDevice] else probed
  ds.filter (fun d => d.is_loopback) ++ ds.filter (fun d => !d.is_loopback)

/-! ## Remote-control client: popup.js -/

/-- Base address of every popup request (popup.js line 4). -/
def API_BASE : String := "http://127.0.0.1:8765"

/-- URL built by apiGet and apiPost in popup.js. -/
def apiUrl (endpoint : String) : String := API_BASE ++ endpoint

/-- Endpoints requested by popup.js: checkConnection and pollStatus and
pollForResults use /status, loadDevices uses /devices, startRecording
posts /start, stopRecording posts /stop, fetchResults uses /transcript
and /summary, copySummary uses /summary. -/
def popupEndpoints : List String :=
  ["/status", "/devices", "/start", "/stop", "/transcript", "/summary"]

/-- The one URL fetched by background.js (line 80). -/
def backgroundStatusUrl : String := "http://127.0.0.1:8765/status"

/-- Every HTTP request URL the remote-control client can issue. -/
def clientRequestUrls : List String :=
  popupEndpoints.map apiUrl ++ [backgroundStatusUrl]

/-- Authority part of a URL: strip the http scheme and take up to the
first slash. -/
def urlAuthority (u : String) : List Char :=
  let rest :=
    if "http://".toList.isPrefixOf u.toList then u.toList.drop 7 else u.toList
  (splitAtChar '/' rest).1

/-- Host part of a URL. -/
def urlHost (u : String) : String :=
  String.mk (splitAtChar ':' (urlAuthority u)).1

/-- Port part of a URL, as written. -/
def urlPort (u : String) : String :=
  String.mk (splitAtChar ':' (urlAuthority u)).2

/-- The JSON body of GET /summary as consumed by popup.js; an absent
meeting_title is the empty string, which is falsy in JavaScript. -/
structure SummaryData where
  ready : Bool
  executive_summary : String
  key_discussion_points : List String
  action_items : List String
  decisions_made : List String
  next_steps : List String
  model_used : String
  meeting_title : String
deriving DecidableEq, Repr

/-- One bullet-list section of the flat document: header line then one
line per item with the given bullet mark. -/
def bulletBlock (header : String) (mark : String) (items : List String) : String :=
  "## " ++ header ++ "\n" ++ String.join (items.map (fun i => mark ++ i ++ "\n"))

/-- The flat document built by copySummary in popup.js (lines 428 to
452), translated block by block: title, always the Summary section,
then Key Points, Action Items (checkbox bullets), Decisions, Next Steps,
each only when its list is non-empty; a blank separator line follows
every block except the last Next Steps block. -/
def copySummaryText (d : SummaryData) : String :=
  let t0 := "# " ++ (if d.meeting_title = "" then "Meeting Summary" else d.meeting_title)
    ++ "\n\n"
  let t1 := t0 ++ "## Summary\n" ++ d.executive_summary ++ "\n\n"
  let t2 :=
    if 0 < d.key_discussion_points.length then
      t1 ++ bulletBlock "Key Points" "- " d.key_discussion_points ++ "\n"
    else t1
  let t3 :=
    if 0 < d.action_items.length then
      t2 ++ bulletBlock "Action Items" "- [ ] " d.action_items ++ "\n"
    else t2
  let t4 :=
    if 0 < d.decisions_made.length then
      t3 ++ bulletBlock "Decisions" "- " d.decisions_made ++ "\n"
    else t3
  if 0 < d.next_steps.length then
    t4 ++ bulletBlock "Next Steps" "- " d.next_steps
  else t4

/-- copySummary copies the flat document only when the summary is
ready (popup.js line 422). -/
def copySummary (d : SummaryData) : Option String :=
  if d.ready then some (copySummaryText d) else none

/-- Specification-side rendering of the flat export: the five sections
in the fixed order Summary, Key Points, Action Items, Decisions, Next
Steps, each list section omitted when empty and every action item on a
checkbox bullet. Stated from the words of the spec, to be compared with
copySummaryText. -/
def flatDocSpec (d : SummaryData) : String :=
  "# " ++ (if d.meeting_title = "" then "Meeting Summary" else d.meeting_title)
    ++ "\n\n"
    ++ "## Summary\n" ++ d.executive_summary ++ "\n\n"
    ++ (if d.key_discussion_points ≠ [] then
          bulletBlock "Key Points" "- " d.key_discussion_points ++ "\n" else "")
    ++ (if d.action_items ≠ [] then
          bulletBlock "Action Items" "- [ ] " d.action_items ++ "\n" else "")
    ++ (if d.decisions_made ≠ [] then
          bulletBlock "Decisions" "- " d.decisions_made ++ "\n" else "")
    ++ (if d.next_steps ≠ [] then
          bulletBlock "Next Steps" "- " d.next_steps else "")

/-- A rendered result card: heading, optional paragraph, bullet list. -/
structure Card where
  title : String
  body : Option String
  items : List String
deriving DecidableEq, Repr

/-- createResultCard in popup.js: the paragraph is added only when the
text argument is truthy, the list only when non-empty (the Card record
keeps the list as given since callers pass non-empty lists). -/
def createResultCard (title : String) (text : Option String) (list : List String) : Card :=
  { title := title
    body := match text with
      | some t => if t = "" then none else some t
      | none => none
    items := list }

/-- The summary result cards appended by fetchResults in popup.js
(lines 336 to 367), in program order: Summary when the executive
summary is truthy, then each list section when non-empty. -/
def fetchResultsCards (d : SummaryData) : List Card :=
  if d.ready then
    (if d.executive_summary ≠ "" then
       [createResultCard "Summary" (some d.executive_summary) []] else [])
    ++ (if 0 < d.key_discussion_points.length then
          [createResultCard "Key Points" none d.key_discussion_points] else [])
    ++ (if 0 < d.action_items.length then
          [createResultCard "Action Items" none d.action_items] else [])
    ++ (if 0 < d.decisions_made.length then
          [createResultCard "Decisions" none d.decisions_made] else [])
    ++ (if 0 < d.next_steps.length then
          [createResultCard "Next Steps" none d.next_steps] else [])
  else []

/-- Canonical section order of the exported summary. -/
def sectionOrder : List String :=
  ["Summary", "Key Points", "Action Items", "Decisions", "Next Steps"]

/-! ## Remote-control client: result polling (popup.js lines 287 to 324,
background.js lines 62 to 106) -/

/-- Interval of the status poll while the popup is open (popup.js
line 41, milliseconds). -/
def POPUP_STATUS_POLL_INTERVAL_MS : Nat := 2000

/-- Interval of the result poll started after a stop (popup.js
line 323, milliseconds). -/
def RESULT_POLL_INTERVAL_MS : Nat := 2000

/-- Attempt bound of the result poll (popup.js line 289). -/
def RESULT_POLL_MAX_ATTEMPTS : Nat := 150

/-- Period of the alarm-driven background status check (background.js
line 68: 0.5 minutes), in milliseconds. -/
def BACKGROUND_ALARM_PERIOD_MS : Nat := 30000

/-- The message shown when the result poll gives up (popup.js
line 320). -/
def noResultMessage : String :=
  "No speech detected. Ensure audio is playing and Stereo Mix is enabled in Windows Sound settings."

/-- A /status response as read by the polling loops. -/
structure StatusResp where
  recording : Bool
  has_transcript : Bool
  has_summary : Bool
deriving DecidableEq, Repr

/-- Whether the status observed at a given attempt reports a ready
summary; a failed fetch (none) is caught and reports nothing. -/
def summaryAt (statuses : Nat → Option StatusResp) (n : Nat) : Bool :=
  match statuses n with
  | some st => st.has_summary
  | none => false

/-- How one run of the result-polling loop ends. -/
inductive PollOutcome
  | summaryReady (attempt : Nat)
  | noResult (msg : String)
deriving DecidableEq, Repr

/-- The pollForResults interval callback, one tick per fuel unit: the
attempt counter is incremented, the status is fetched (a fetch error is
swallowed), a ready summary clears the interval at once, and when the
attempt bound is reached the loop clears the interval and shows the
no-result message. -/
def pollLoop (statuses : Nat → Option StatusResp) (attempt : Nat) :
    Nat → PollOutcome
  | 0 => .noResult noResultMessage
  | fuel + 1 =>
    if summaryAt statuses attempt then .summaryReady attempt
    else pollLoop statuses (attempt + 1) fuel

/-- pollForResults in popup.js: at most RESULT_POLL_MAX_ATTEMPTS ticks,
counting attempts from 1. -/
def pollForResultsRun (statuses : Nat → Option StatusResp) : PollOutcome :=
  pollLoop statuses 1 RESULT_POLL_MAX_ATTEMPTS

/-! ## Remote-control client: content.js -/

/-- Meeting URL substrings checked by content.js (and detectMeeting in
popup.js), with the platform names, in program order. -/
def meetingPatterns : List (String × String) :=
  [("meet.google.com", "Google Meet"),
   ("zoom.us/j/", "Zoom"),
   ("zoom.us/wc/", "Zoom"),
   ("zoom.com/j/", "Zoom"),
   ("zoom.com/wc/", "Zoom"),
   ("teams.microsoft.com", "Teams")]

/-- The platform detection loop of content.js: the first pattern
contained in the URL wins. -/
def detectPlatform (url : String) : Option String :=
  (meetingPatterns.find? (fun m => listContains url.toList m.1.toList)).map
    (fun m => m.2)

/-- The page-visible effects of the content script: the injection
guard flag, the number of meetingDetected messages sent and the number
of message listeners registered. -/
structure PageState where
  securemeet_loaded : Bool
  messagesSent : Nat
  listeners : Nat
deriving DecidableEq, Repr

/-- One execution of the content script IIFE (content.js lines 4 to
54): return at once when the guard flag is set; otherwise set the flag,
send one meetingDetected message when a platform is detected, and
register one message listener. -/
def runContentScript (url : String) (s : PageState) : PageState :=
  if s.securemeet_loaded then s
  else
    { securemeet_loaded := true
      messagesSent := s.messagesSent + (if (detectPlatform url).isSome then 1 else 0)
      listeners := s.listeners + 1 }

/-! ## Remote-control client: background.js -/

/-- The regular expressions of MEETING_PATTERNS in background.js,
tested against a tab URL. The dots of the sources are escaped, the
alternations expand to four literal substrings, and the Teams pattern
requires the word meeting somewhere after the host match. -/
def bgIsMeetingUrl (u : String) : Bool :=
  listContains u.toList "meet.google.com".toList
  || ["zoom.us/j/", "zoom.us/wc/", "zoom.com/j/", "zoom.com/wc/"].any
      (fun p => listContains u.toList p.toList)
  || (match dropAfterMatch u.toList "teams.microsoft.com".toList with
      | some rest => listContains rest "meeting".toList
      | none => false)

/-- Mutable state of the background service worker: the tracked meeting
tab and the action badge text. -/
structure BackgroundState where
  activeMeetingTabId : Option Nat
  badgeText : String
deriving DecidableEq, Repr

/-- Events handled by background.js. A tabUpdated event carries the
tab id, whether changeInfo.status is complete, and the tab URL when
present. -/
inductive BgEvent
  | tabUpdated (tabId : Nat) (statusComplete : Bool) (url : Option String)
  | tabRemoved (tabId : Nat)
  | meetingDetectedMsg (senderTabId : Option Nat)
  | getActiveMeetingMsg
deriving DecidableEq, Repr

/-- The JavaScript idiom x || null applied to an optional tab id: the
id 0 is falsy and collapses to null. -/
def jsIdOrNull : Option Nat → Option Nat
  | some 0 => none
  | some (n + 1) => some (n + 1)
  | none => none

/-- The background.js listeners as one step function. tabs.onUpdated
ignores incomplete updates and missing URLs, tracks a meeting URL with
the REC badge, and resets the tracked tab and clears the badge when the
tracked tab navigates to a non-meeting URL; tabs.onRemoved does the
same reset when the tracked tab closes; a meetingDetected message
tracks the sender tab and sets the REC badge; getActiveMeeting only
answers. -/
def bgStep (s : BackgroundState) : BgEvent → BackgroundState
  | .tabUpdated tabId statusComplete url =>
    match url with
    | none => s
    | some u =>
      if !statusComplete then s
      else if bgIsMeetingUrl u then
        { activeMeetingTabId := some tabId, badgeText := "REC" }
      else if s.activeMeetingTabId = some tabId then
        { activeMeetingTabId := none, badgeText := "" }
      else s
  | .tabRemoved tabId =>
    if s.activeMeetingTabId = some tabId then
      { activeMeetingTabId := none, badgeText := "" }
    else s
  | .meetingDetectedMsg senderTabId =>
    { activeMeetingTabId := jsIdOrNull senderTabId, badgeText := "REC" }
  | .getActiveMeetingMsg => s

/-- The response sent for a getActiveMeeting message (background.js
lines 54 to 59). -/
structure ActiveMeetingResp where
  hasMeeting : Bool
  tabId : Option Nat
deriving DecidableEq, Repr

/-- The getActiveMeeting handler: both fields read the same variable. -/
def getActiveMeetingResp (s : BackgroundState) : ActiveMeetingResp :=
  { hasMeeting := s.activeMeetingTabId.isSome
    tabId := s.activeMeetingTabId }

/-! ## Theorems -/

/-- C1: start succeeds exactly when the session state is Idle, Ready or
Failed, in which case a fresh Session is allocated (new id, cleared
transcript, summary and error) and the state becomes Recording; from
Recording, Stopping, Transcribing or Summarizing it fails with
StateConflictError and leaves the machine unchanged. -/
theorem start_state_transitions (m : Machine) (d : Option Nat) :
    ((m.state = .Idle ∨ m.state = .Ready ∨ m.state = .Failed) →
      (start m d).1.success = true
      ∧ (start m d).1.error = none
      ∧ (start m d).2.state = .Recording
      ∧ (start m d).2.sessionId = m.sessionId + 1
      ∧ (start m d).2.transcript = none
      ∧ (start m d).2.summary = none
      ∧ (start m d).2.error = none)
    ∧ ((m.state = .Recording ∨ m.state = .Stopping ∨ m.state = .Transcribing
        ∨ m.state = .Summarizing) →
      (start m d).1.success = false
      ∧ (start m d).1.error = some .StateConflictError
      ∧ (start m d).2 = m) := by
  cases h : m.state <;> simp [start, canStart, h]

/-- Witness for C1: a concrete start from Idle records, and a concrete
start while Recording is rejected with the machine unchanged. -/
theorem start_state_transitions_witness :
    (start ⟨0, .Idle, none, 0, none, none, none⟩ none).2.state = .Recording
    ∧ (start ⟨5, .Recording, none, 0, none, none, none⟩ none).1.error
        = some .StateConflictError
    ∧ (start ⟨5, .Recording, none, 0, none, none, none⟩ none).2
        = ⟨5, .Recording, none, 0, none, none, none⟩ :=
  ⟨((start_state_transitions ⟨0, .Idle, none, 0, none, none, none⟩ none).1
      (Or.inl rfl)).2.2.1,
   ((start_state_transitions ⟨5, .Recording, none, 0, none, none, none⟩ none).2
      (Or.inl rfl)).2.1,
   ((start_state_transitions ⟨5, .Recording, none, 0, none, none, none⟩ none).2
      (Or.inl rfl)).2.2⟩

/-- C7: the local extractive strategy is deterministic and performs no
network access: its result does not depend on what the remote API would
have answered, and its network-call count is zero; two invocations on
the same text are therefore identical. -/
theorem local_strategy_deterministic (net1 net2 : RemoteNet) (t : String) :
    engineSummarize Strategy.localExtractive net1 t
      = engineSummarize Strategy.localExtractive net2 t
    ∧ (engineSummarize Strategy.localExtractive net1 t).2 = 0
    ∧ (engineSummarize Strategy.localExtractive net1 t).1 = summarizeLocal t :=
  ⟨rfl, rfl, rfl⟩

/-- C8: list_devices always returns at least one device, and the result
splits as the loopback-capable devices followed by the non-loopback
ones. -/
theorem devices_loopback_first (probed : List AudioDevice) :
    list_devices probed ≠ []
    ∧ ∃ xs ys, list_devices probed = xs ++ ys
        ∧ (∀ d ∈ xs, d.is_loopback = true)
        ∧ (∀ d ∈ ys, d.is_loopback = false) := by
  constructor
  · cases probed with
    | nil => decide
    | cons a l =>
      cases hb : a.is_loopback with
      | true =>
        apply List.ne_nil_of_mem (a := a)
        apply List.mem_append_left
        simp [list_devices, List.mem_filter, hb]
      | false =>
        apply List.ne_nil_of_mem (a := a)
        apply List.mem_append_right
        simp [list_devices, List.mem_filter, hb]
  · refine ⟨_, _, rfl, ?_, ?_⟩
    · intro d hd
      simpa using (List.mem_filter.mp hd).2
    · intro d hd
      simpa using (List.mem_filter.mp hd).2

/-- C2: when the worker exits non-zero or the channel breaks before a
response during a submission, the submission yields WorkerCrashError,
the Session reaches Failed with the status error set while
has_transcript and has_summary stay false, the WorkerHandle is marked
Crashed and is never reused (the next spawn uses a strictly fresh pid),
and a subsequent start succeeds. -/
theorem worker_crash_containment (o : Orchestrator) (outcome : WorkerOutcome)
    (o' : Orchestrator) (ho : o' = runTranscription o outcome)
    (hst : o.machine.state = .Transcribing)
    (ht : o.machine.transcript = none) (hs : o.machine.summary = none)
    (hpid : ∀ h, o.bridge.handle = some h → h.pid < o.bridge.nextPid)
    (hc : outcomeCrashes outcome = true) :
    (statusOf o'.machine).error.isSome = true
    ∧ (statusOf o'.machine).has_transcript = false
    ∧ (statusOf o'.machine).has_summary = false
    ∧ o'.machine.state = .Failed
    ∧ o'.machine.error = some (errName .WorkerCrashError)
    ∧ o'.bridge.handle.map WorkerHandle.status = some .Crashed
    ∧ (start o'.machine none).1.success = true
    ∧ (start o'.machine none).2.state = .Recording
    ∧ (spawnIfNeeded o'.bridge).1.pid = o'.bridge.nextPid
    ∧ o'.bridge.handle.map WorkerHandle.pid ≠ some (spawnIfNeeded o'.bridge).1.pid := by
  have hsub : submit o.bridge outcome =
      (Except.error OrchestratorError.WorkerCrashError,
       { (spawnIfNeeded o.bridge).2 with
           handle := some ⟨(spawnIfNeeded o.bridge).1.pid, WorkerStatus.Crashed⟩ }) := by
    cases outcome with
    | response t => simp [outcomeCrashes] at hc
    | exited c => rfl
    | brokenChannel => rfl
  have hlt : (spawnIfNeeded o.bridge).1.pid < (spawnIfNeeded o.bridge).2.nextPid := by
    cases hh : o.bridge.handle with
    | none => simp [spawnIfNeeded, hh]
    | some h =>
      by_cases hr : h.status = WorkerStatus.Ready
      · simpa [spawnIfNeeded, hh, hr] using hpid h hh
      · simp [spawnIfNeeded, hh, hr]
  have ho2 : o' =
      { machine := { o.machine with
          error := some (errName OrchestratorError.WorkerCrashError)
          state := SessionState.Failed }
        bridge := { (spawnIfNeeded o.bridge).2 with
          handle := some ⟨(spawnIfNeeded o.bridge).1.pid, WorkerStatus.Crashed⟩ } } := by
    rw [ho]
    simp [runTranscription, hst, hsub]
  subst ho2
  have hfresh :
      (spawnIfNeeded { (spawnIfNeeded o.bridge).2 with
          handle := some ⟨(spawnIfNeeded o.bridge).1.pid, WorkerStatus.Crashed⟩ }).1.pid
        = (spawnIfNeeded o.bridge).2.nextPid := by
    generalize spawnIfNeeded o.bridge = s
    simp [spawnIfNeeded]
  refine ⟨by simp [statusOf], by simp [statusOf, ht], by simp [statusOf, hs],
    rfl, rfl, rfl, by simp [start, canStart], by simp [start, canStart], ?_, ?_⟩
  · simpa using hfresh
  · simp [hfresh]
    exact Nat.ne_of_lt hlt

/-- Witness for C2: a concrete submission in Transcribing whose worker
exits with code 1. -/
theorem worker_crash_containment_witness :
    (runTranscription
        ⟨⟨1, .Transcribing, none, 0, none, none, none⟩, ⟨none, 0⟩⟩
        (.exited 1)).machine.state = .Failed
    ∧ (start (runTranscription
        ⟨⟨1, .Transcribing, none, 0, none, none, none⟩, ⟨none, 0⟩⟩
        (.exited 1)).machine none).1.success = true := by
  have h := worker_crash_containment
    ⟨⟨1, .Transcribing, none, 0, none, none, none⟩, ⟨none, 0⟩⟩
    (.exited 1) _ rfl rfl rfl rfl (by intro h hh; cases hh) (by decide)
  exact ⟨h.2.2.2.1, h.2.2.2.2.2.2.1⟩

/-- C6: for a transcript with no extractable sentence (in particular
the empty transcript produced from silent audio), both strategies
return a well-formed SummaryResult whose four category lists are empty
and whose executive summary is empty; the engine is a total function,
so no error is raised. -/
theorem empty_transcript_empty_summary (strat : Strategy) (net : RemoteNet)
    (t : String) (h : extractSentences t = []) :
    (engineSummarize strat net t).1.key_discussion_points = []
    ∧ (engineSummarize strat net t).1.action_items = []
    ∧ (engineSummarize strat net t).1.decisions_made = []
    ∧ (engineSummarize strat net t).1.next_steps = []
    ∧ (engineSummarize strat net t).1.executive_summary = "" := by
  cases strat with
  | localExtractive =>
    simp [engineSummarize, summarizeLocal, h, topIndices, selectAt,
      String.intercalate]
  | remoteApi =>
    simp [engineSummarize, summarizeRemote, h, emptySummaryResult]

/-- Witness for C6: the empty transcript under the local strategy and
under the remote strategy with a failing network. -/
theorem empty_transcript_empty_summary_witness :
    (engineSummarize Strategy.localExtractive RemoteNet.netFailure "").1.action_items = []
    ∧ (engineSummarize Strategy.remoteApi RemoteNet.netFailure "").1.decisions_made = [] :=
  ⟨(empty_transcript_empty_summary Strategy.localExtractive RemoteNet.netFailure ""
      rfl).2.1,
   (empty_transcript_empty_summary Strategy.remoteApi RemoteNet.netFailure ""
      rfl).2.2.1⟩

/-- C5: every HTTP request URL the remote-control client can issue, in
popup.js and in the alarm handler of background.js, has host 127.0.0.1
and port 8765. -/
theorem client_requests_loopback_only :
    API_BASE = "http://127.0.0.1:8765"
    ∧ clientRequestUrls.all
        (fun u => urlHost u == "127.0.0.1" && urlPort u == "8765") = true := by
  constructor
  · rfl
  · decide

/-- C9: executing the content script n times (n at least 1) leaves the
page in the same state as executing it once, and the first execution
sets the guard flag; in particular no further meetingDetected message is
sent and no further listener is registered by repeated executions. -/
theorem content_script_idempotent (url : String) (s : PageState) (n : Nat)
    (hn : 1 ≤ n) :
    (runContentScript url)^[n] s = runContentScript url s
    ∧ (runContentScript url s).securemeet_loaded = true := by
  have hload : ∀ p : PageState, (runContentScript url p).securemeet_loaded = true := by
    intro p
    by_cases hp : p.securemeet_loaded
    · simp [runContentScript, hp]
    · simp [runContentScript, hp]
  have hidem : ∀ p : PageState,
      runContentScript url (runContentScript url p) = runContentScript url p := by
    intro p
    generalize hq : runContentScript url p = q
    have hqt : q.securemeet_loaded = true := hq ▸ hload p
    simp [runContentScript, hqt]
  constructor
  · obtain ⟨k, rfl⟩ : ∃ k, n = k + 1 := ⟨n - 1, by omega⟩
    clear hn
    induction k with
    | zero => rfl
    | succ j ih =>
      rw [Function.iterate_succ_apply']
      rw [ih]
      exact hidem s
  · exact hload s

/-- Witness for C9: two executions on a fresh Google Meet page equal
one execution. -/
theorem content_script_idempotent_witness :
    (runContentScript "https://meet.google.com/abc")^[2] ⟨false, 0, 0⟩
      = runContentScript "https://meet.google.com/abc" ⟨false, 0, 0⟩ :=
  (content_script_idempotent "https://meet.google.com/abc" ⟨false, 0, 0⟩ 2
    (by decide)).1

/-- C10: the getActiveMeeting response always reports hasMeeting
exactly when the tracked tab id is non-null, and both closing the
tracked meeting tab and a completed navigation of it to a non-meeting
URL reset the tracked id to null and clear the badge text. -/
theorem badge_tracking_consistent (s : BackgroundState) :
    (getActiveMeetingResp s).hasMeeting = (getActiveMeetingResp s).tabId.isSome
    ∧ (∀ t, s.activeMeetingTabId = some t →
        (bgStep s (BgEvent.tabRemoved t)).activeMeetingTabId = none
        ∧ (bgStep s (BgEvent.tabRemoved t)).badgeText = ""
        ∧ ∀ u, bgIsMeetingUrl u = false →
            (bgStep s (BgEvent.tabUpdated t true (some u))).activeMeetingTabId = none
            ∧ (bgStep s (BgEvent.tabUpdated t true (some u))).badgeText = "") := by
  refine ⟨rfl, ?_⟩
  intro t ht
  refine ⟨by simp [bgStep, ht], by simp [bgStep, ht], ?_⟩
  intro u hu
  constructor <;> simp [bgStep, ht, hu]

/-- Witness for C10: a concrete tracked tab 7 is reset by closing it
and by navigating it to a non-meeting URL. -/
theorem badge_tracking_consistent_witness :
    (bgStep ⟨some 7, "REC"⟩ (BgEvent.tabRemoved 7)).badgeText = ""
    ∧ (bgStep ⟨some 7, "REC"⟩
        (BgEvent.tabUpdated 7 true (some "https://example.com/page"))).activeMeetingTabId
        = none :=
  ⟨((badge_tracking_consistent ⟨some 7, "REC"⟩).2 7 rfl).2.1,
   (((badge_tracking_consistent ⟨some 7, "REC"⟩).2 7 rfl).2.2
      "https://example.com/page" (by decide)).1⟩

/-- Helper: the polling loop reports no result when no tick in its
window observes a ready summary. -/
theorem pollLoop_noSummary (statuses : Nat → Option StatusResp) (fuel : Nat) :
    ∀ attempt, (∀ i, attempt ≤ i → i < attempt + fuel → summaryAt statuses i = false) →
      pollLoop statuses attempt fuel = PollOutcome.noResult noResultMessage := by
  induction fuel with
  | zero => intro attempt _; rfl
  | succ k ih =>
    intro attempt h
    have h0 : summaryAt statuses attempt = false := h attempt le_rfl (by omega)
    simp only [pollLoop, h0, Bool.false_eq_true, if_false]
    exact ih (attempt + 1) (fun i h1 h2 => h i (by omega) (by omega))

/-- Helper: the polling loop stops at the first tick in its window that
observes a ready summary. -/
theorem pollLoop_firstHit (statuses : Nat → Option StatusResp) (fuel : Nat) :
    ∀ attempt n, attempt ≤ n → n < attempt + fuel →
      summaryAt statuses n = true →
      (∀ m, attempt ≤ m → m < n → summaryAt statuses m = false) →
      pollLoop statuses attempt fuel = PollOutcome.summaryReady n := by
  induction fuel with
  | zero =>
    intro attempt n h1 h2 _ _
    omega
  | succ k ih =>
    intro attempt n h1 h2 h3 h4
    by_cases he : attempt = n
    · subst he
      simp [pollLoop, h3]
    · have h0 : summaryAt statuses attempt = false := h4 attempt le_rfl (by omega)
      simp only [pollLoop, h0, Bool.false_eq_true, if_false]
      exact ih (attempt + 1) n (by omega) (by omega) h3
        (fun m hm1 hm2 => h4 m (by omega) hm2)

/-- Helper: a summaryReady outcome can only name a tick inside the
window, and that tick did observe a ready summary. -/
theorem pollLoop_readyRange (statuses : Nat → Option StatusResp) (fuel : Nat) :
    ∀ attempt n, pollLoop statuses attempt fuel = PollOutcome.summaryReady n →
      attempt ≤ n ∧ n < attempt + fuel ∧ summaryAt statuses n = true := by
  induction fuel with
  | zero =>
    intro attempt n h
    simp [pollLoop] at h
  | succ k ih =>
    intro attempt n h
    cases h0 : summaryAt statuses attempt with
    | true =>
      simp only [pollLoop, h0, if_true] at h
      cases h
      exact ⟨le_rfl, by omega, h0⟩
    | false =>
      simp only [pollLoop, h0, Bool.false_eq_true, if_false] at h
      obtain ⟨a, b, c⟩ := ih (attempt + 1) n h
      exact ⟨by omega, by omega, c⟩

/-- Helper: every run of the polling loop ends in one of the two
outcomes, the no-result outcome carrying the fixed message. -/
theorem pollLoop_shape (statuses : Nat → Option StatusResp) (fuel : Nat) :
    ∀ attempt, (∃ n, pollLoop statuses attempt fuel = PollOutcome.summaryReady n)
      ∨ pollLoop statuses attempt fuel = PollOutcome.noResult noResultMessage := by
  induction fuel with
  | zero => intro _; exact Or.inr rfl
  | succ k ih =>
    intro attempt
    cases h0 : summaryAt statuses attempt with
    | true => exact Or.inl ⟨attempt, by simp [pollLoop, h0]⟩
    | false =>
      simp only [pollLoop, h0, Bool.false_eq_true, if_false]
      exact ih (attempt + 1)

/-- C4 counterexample: the result polling of popup.js runs on the same
2000 millisecond interval as the regular status polling, not on a
longer one. -/
theorem result_poll_interval_not_longer :
    RESULT_POLL_INTERVAL_MS = POPUP_STATUS_POLL_INTERVAL_MS
    ∧ ¬ POPUP_STATUS_POLL_INTERVAL_MS < RESULT_POLL_INTERVAL_MS := by
  decide

/-- C4 (amended): after a stop request the result polling continues on
the same fixed 2 second interval for at most 150 attempts; every run
either stops at the first attempt observing has_summary true (an
attempt within the bound) or gives up after the bound with the
no-result message, so the loop always terminates. -/
theorem result_polling_bounded (statuses : Nat → Option StatusResp) :
    RESULT_POLL_MAX_ATTEMPTS = 150
    ∧ RESULT_POLL_INTERVAL_MS = 2000
    ∧ ((∃ n, 1 ≤ n ∧ n ≤ RESULT_POLL_MAX_ATTEMPTS
          ∧ pollForResultsRun statuses = PollOutcome.summaryReady n
          ∧ summaryAt statuses n = true)
        ∨ pollForResultsRun statuses = PollOutcome.noResult noResultMessage)
    ∧ (∀ n, 1 ≤ n → n ≤ RESULT_POLL_MAX_ATTEMPTS → summaryAt statuses n = true →
        (∀ m, 1 ≤ m → m < n → summaryAt statuses m = false) →
        pollForResultsRun statuses = PollOutcome.summaryReady n)
    ∧ ((∀ n, 1 ≤ n → n ≤ RESULT_POLL_MAX_ATTEMPTS → summaryAt statuses n = false) →
        pollForResultsRun statuses = PollOutcome.noResult noResultMessage) := by
  refine ⟨rfl, rfl, ?_, ?_, ?_⟩
  · rcases pollLoop_shape statuses RESULT_POLL_MAX_ATTEMPTS 1 with ⟨n, hn⟩ | hno
    · obtain ⟨a, b, c⟩ := pollLoop_readyRange statuses RESULT_POLL_MAX_ATTEMPTS 1 n hn
      have hb : n < 1 + 150 := b
      refine Or.inl ⟨n, a, ?_, hn, c⟩
      show n ≤ 150
      omega
    · exact Or.inr hno
  · intro n h1 h2 h3 h4
    have h2' : n ≤ 150 := h2
    exact pollLoop_firstHit statuses RESULT_POLL_MAX_ATTEMPTS 1 n h1
      (show n < 1 + 150 by omega) h3 (fun m hm1 hm2 => h4 m hm1 hm2)
  · intro h
    refine pollLoop_noSummary statuses RESULT_POLL_MAX_ATTEMPTS 1 (fun i h1 h2 => ?_)
    have h2' : i < 1 + 150 := h2
    exact h i h1 (show i ≤ 150 by omega)

/-- Witness for C4: a run that never observes a status response gives
up with the no-result message, and a run first observing a ready
summary at attempt 3 stops there. -/
theorem result_polling_bounded_witness :
    pollForResultsRun (fun _ => none) = PollOutcome.noResult noResultMessage
    ∧ pollForResultsRun (fun n => some ⟨false, true, 3 ≤ n⟩)
        = PollOutcome.summaryReady 3 :=
  ⟨(result_polling_bounded (fun _ => none)).2.2.2.2 (fun n _ _ => rfl),
   (result_polling_bounded (fun n => some ⟨false, true, 3 ≤ n⟩)).2.2.2.1 3
     (by decide) (by decide) (by decide)
     (fun m hm1 hm2 => by
       simp only [summaryAt]
       simp only [decide_eq_false_iff_not]
       omega)⟩

/-- C3: for a ready summary, the flat document copied by copySummary is
exactly the specification rendering with sections in the order Summary,
Key Points, Action Items, Decisions, Next Steps, empty list sections
omitted and action items on checkbox bullets; and the result cards of
fetchResults carry their titles as a sublist of that order, each list
section appearing exactly when its list is non-empty, with the Action
Items card holding the action item list unchanged. -/
theorem export_section_order (d : SummaryData) (hr : d.ready = true) :
    copySummary d = some (flatDocSpec d)
    ∧ List.Sublist ((fetchResultsCards d).map Card.title) sectionOrder
    ∧ ("Summary" ∈ (fetchResultsCards d).map Card.title ↔ d.executive_summary ≠ "")
    ∧ ("Key Points" ∈ (fetchResultsCards d).map Card.title
        ↔ d.key_discussion_points ≠ [])
    ∧ ("Action Items" ∈ (fetchResultsCards d).map Card.title ↔ d.action_items ≠ [])
    ∧ ("Decisions" ∈ (fetchResultsCards d).map Card.title ↔ d.decisions_made ≠ [])
    ∧ ("Next Steps" ∈ (fetchResultsCards d).map Card.title ↔ d.next_steps ≠ [])
    ∧ (∀ c ∈ fetchResultsCards d, c.title = "Action Items" → c.items = d.action_items) := by
  have hflat : copySummaryText d = flatDocSpec d := by
    unfold copySummaryText flatDocSpec
    cases d.key_discussion_points <;> cases d.action_items <;>
      cases d.decisions_made <;> cases d.next_steps <;>
      simp [String.append_assoc, String.append_empty]
  refine ⟨by simp [copySummary, hr, hflat], ?_, ?_, ?_, ?_, ?_, ?_, ?_⟩ <;>
    · simp only [fetchResultsCards, sectionOrder, createResultCard, hr]
      by_cases h1 : d.executive_summary = "" <;>
        cases d.key_discussion_points <;> cases d.action_items <;>
        cases d.decisions_made <;> cases d.next_steps <;>
        simp [h1] <;> decide

/-- Witness for C3: a concrete ready summary with an empty decisions
list: the decisions section is omitted, the remaining sections keep
their order, and the action items are checkbox bullets. -/
theorem export_section_order_witness :
    copySummary ⟨true, "Overview.", ["point one"], ["task one", "task two"], [],
        ["step one"], "local", ""⟩
      = some ("# Meeting Summary\n\n## Summary\nOverview.\n\n## Key Points\n- point one\n\n## Action Items\n- [ ] task one\n- [ ] task two\n\n## Next Steps\n- step one\n")
    ∧ (fetchResultsCards ⟨true, "Overview.", ["point one"], ["task one", "task two"],
        [], ["step one"], "local", ""⟩).map Card.title
      = ["Summary", "Key Points", "Action Items", "Next Steps"] := by
  have h := export_section_order
    ⟨true, "Overview.", ["point one"], ["task one", "task two"], [],
      ["step one"], "local", ""⟩ rfl
  refine ⟨?_, by decide⟩
  rw [h.1]
  rfl

end SecureMeet
